import Mathlib

/-!
Verification of the orchestration core of the Telegram-Super-AI-Bot
(`telegram_bot.py`): intent classification, the search decision and the
ordered-fallback search resolver, the two-provider generation race, the
per-user conversation-history update, the adaptive response-shape planner,
and the response post-processing pass.

The Python code is shallowly embedded: pure functions become Lean
functions over `String`/`List`; effectful calls (HTTP backends, the time
API, the session store, the model race) are supplied by explicit
environment records whose fields carry each call's outcome (`Except`
models a raised exception, `Option` a `None`-able result).  Python `re`
patterns are transcribed into a small executable regex AST with a
backtracking matcher that mirrors `re.search` / `re.match` / `re.sub`
semantics (left-biased alternation, greedy quantifiers, word boundaries,
IGNORECASE and MULTILINE) for the ASCII inputs the bot manipulates.
-/

/-! ## Python string primitives (ASCII model) -/

/-- Python `str` whitespace for `strip`/`split`: space, tab, newline,
carriage return, vertical tab, form feed. -/
def isPySpace (c : Char) : Bool :=
  c == ' ' || c == '\t' || c == '\n' || c == '\r' || c == '\x0b' || c == '\x0c'

/-- Python `str.lower()` (ASCII). -/
def pyLower (s : String) : String :=
  String.mk (s.toList.map Char.toLower)

/-- Python `str.strip()` (ASCII whitespace model). -/
def pyStrip (s : String) : String :=
  String.mk (((s.toList.dropWhile isPySpace).reverse.dropWhile isPySpace).reverse)

/-- Helper for `pySplit`: accumulate the current word (reversed) while
scanning. -/
def pySplitAux : List Char → List Char → List String
  | [], acc => if acc.isEmpty then [] else [String.mk acc.reverse]
  | c :: rest, acc =>
    if isPySpace c then
      if acc.isEmpty then pySplitAux rest []
      else String.mk acc.reverse :: pySplitAux rest []
    else pySplitAux rest (c :: acc)

/-- Python `str.split()` with no separator: split on whitespace runs,
dropping empty fields. -/
def pySplit (s : String) : List String :=
  pySplitAux s.toList []

/-- Does `needle` stand at the head of `hay`? -/
def listStartsWith : List Char → List Char → Bool
  | [], _ => true
  | _ :: _, [] => false
  | a :: as, b :: bs => a == b && listStartsWith as bs

/-- Does `needle` occur as a contiguous run inside `hay`? -/
def listHasSub (needle : List Char) : List Char → Bool
  | [] => listStartsWith needle []
  | c :: rest => listStartsWith needle (c :: rest) || listHasSub needle rest

/-- Python `needle in hay` on strings. -/
def strContains (hay needle : String) : Bool :=
  listHasSub needle.toList hay.toList

/-- One scanning step of Python `str.replace`: `fuel` bounds the scan length.
Both call sites pass a non-empty `needle`, so each step consumes input. -/
def listReplaceAux (needle repl : List Char) : Nat → List Char → List Char
  | 0, hay => hay
  | _ + 1, [] => []
  | fuel + 1, c :: rest =>
    if listStartsWith needle (c :: rest) then
      repl ++ listReplaceAux needle repl fuel ((c :: rest).drop needle.length)
    else
      c :: listReplaceAux needle repl fuel rest

/-- Python `hay.replace(needle, repl)`: every non-overlapping occurrence,
left to right. -/
def strReplace (hay needle repl : String) : String :=
  String.mk (listReplaceAux needle.toList repl.toList (hay.toList.length + 1) hay.toList)

/-- Python `" ".join(words)`. -/
def joinSpace : List String → String
  | [] => ""
  | [w] => w
  | w :: ws => w ++ " " ++ joinSpace ws

/-- Python truthiness of an `Optional[str]`: `None` and `""` are falsy. -/
def pyTruthyO : Option String → Bool
  | none => false
  | some s => s != ""

/-! ## A small regex engine for the transcribed `re` patterns

Constructors mirror the concrete syntax of the Python patterns used by the
bot: character classes, concatenation, left-biased alternation, greedy
star, the `^` / `$` anchors and the `\b` word boundary. -/

inductive Rx where
  | eps : Rx
  | cls : (Char → Bool) → Rx
  | seq : Rx → Rx → Rx
  | alt : Rx → Rx → Rx
  | star : Rx → Rx
  | bos : Rx
  | eos : Rx
  | wb : Rx

/-- Structural size, used to bound the matcher's recursion depth. -/
def Rx.size : Rx → Nat
  | .eps => 1
  | .cls _ => 1
  | .seq a b => a.size + b.size + 1
  | .alt a b => a.size + b.size + 1
  | .star a => a.size + 1
  | .bos => 1
  | .eos => 1
  | .wb => 1

/-- Python `\w`: ASCII letters, digits and underscore. -/
def isWordChar (c : Char) : Bool :=
  c.isAlpha || c.isDigit || c == '_'

/-- Is position `pos` of `s` a `\b` word boundary? -/
def atWordBoundary (s : List Char) (pos : Nat) : Bool :=
  let before := decide (0 < pos) && isWordChar (s.getD (pos - 1) ' ')
  let after := decide (pos < s.length) && isWordChar (s.getD pos ' ')
  before != after

/-- All end positions of matches of `rx` against `s` starting at `pos`, in
Python backtracking preference order (left alternative first, greedy star
longest first); the head is the span `re` itself would choose.  `ml` is the
MULTILINE flag for `^`/`$`.  `fuel` bounds the recursion depth; every star
iteration consumes at least one character (`filter`), so a fuel of
`(rx.size + 1) * (s.length + 2)` never truncates a real search. -/
def mtch (ml : Bool) : Nat → Rx → List Char → Nat → List Nat
  | 0, _, _, _ => []
  | _ + 1, .eps, _, pos => [pos]
  | _ + 1, .cls p, s, pos =>
    if pos < s.length && p (s.getD pos ' ') then [pos + 1] else []
  | fuel + 1, .seq a b, s, pos =>
    (mtch ml fuel a s pos).flatMap (fun e => mtch ml fuel b s e)
  | fuel + 1, .alt a b, s, pos =>
    mtch ml fuel a s pos ++ mtch ml fuel b s pos
  | fuel + 1, .star a, s, pos =>
    ((mtch ml fuel a s pos).filter (fun e => pos < e)).flatMap
      (fun e => mtch ml fuel (.star a) s e) ++ [pos]
  | _ + 1, .bos, s, pos =>
    if pos == 0 || (ml && 0 < pos && s.getD (pos - 1) ' ' == '\n') then [pos] else []
  | _ + 1, .eos, s, pos =>
    if pos == s.length then [pos]
    else if s.getD pos ' ' == '\n' && (ml || pos + 1 == s.length) then [pos]
    else []
  | _ + 1, .wb, s, pos =>
    if atWordBoundary s pos then [pos] else []

/-- Fuel sufficient for any match attempt of `rx` on `s` (see `mtch`). -/
def rxFuel (rx : Rx) (s : List Char) : Nat :=
  (rx.size + 1) * (s.length + 2)

/-- End positions of the preferred matches of `rx` at position `pos`. -/
def mtchAt (ml : Bool) (rx : Rx) (s : List Char) (pos : Nat) : List Nat :=
  mtch ml (rxFuel rx s) rx s pos

/-- Python `re.match(rx, s)` as a Bool: a match anchored at position 0. -/
def reMatch (rx : Rx) (s : String) : Bool :=
  !(mtchAt false rx s.toList 0).isEmpty

/-- Python `re.search(rx, s)` as a Bool: a match starting anywhere. -/
def reSearch (rx : Rx) (s : String) : Bool :=
  (List.range (s.toList.length + 1)).any (fun p => !(mtchAt false rx s.toList p).isEmpty)

/-- Scanner for `re.sub(rx, repl, s)`: walk left to right, replace each
leftmost non-overlapping preferred match; an empty match substitutes and
then copies one character (Python 3.7+ behaviour — the bot's patterns never
match empty). -/
def reSubAux (ml : Bool) (rx : Rx) (repl : List Char) (s : List Char) : Nat → Nat → List Char
  | 0, pos => s.drop pos
  | fuel + 1, pos =>
    if pos < s.length then
      match (mtchAt ml rx s pos).head? with
      | some e =>
        if pos < e then repl ++ reSubAux ml rx repl s fuel e
        else repl ++ s.getD pos ' ' :: reSubAux ml rx repl s fuel (pos + 1)
      | none => s.getD pos ' ' :: reSubAux ml rx repl s fuel (pos + 1)
    else
      match (mtchAt ml rx s pos).head? with
      | some _ => repl
      | none => []

/-- Python `re.sub(rx, repl, s)` (with `ml` the MULTILINE flag; the
IGNORECASE flag is carried by the pattern's literals, see `rchr`). -/
def reSub (ml : Bool) (rx : Rx) (repl : String) (s : String) : String :=
  String.mk (reSubAux ml rx repl.toList s.toList (s.toList.length + 1) 0)

/-! ### Smart constructors mirroring the patterns' concrete syntax -/

/-- A literal pattern character under `re.IGNORECASE` (every call site of
the bot's patterns passes IGNORECASE). -/
def rchr (c : Char) : Rx :=
  .cls (fun x => x.toLower == c.toLower)

/-- A literal pattern string: concatenation of `rchr`s. -/
def rstr (t : String) : Rx :=
  t.toList.foldr (fun c acc => .seq (rchr c) acc) .eps

/-- `(a|b|...)`: alternation, preferring earlier entries as `re` does. -/
def raltL : List Rx → Rx
  | [] => .eps
  | [r] => r
  | r :: rs => .alt r (raltL rs)

/-- Concatenation of a list of pieces. -/
def rseqL : List Rx → Rx
  | [] => .eps
  | [r] => r
  | r :: rs => .seq r (rseqL rs)

/-- `r+`. -/
def rplus (r : Rx) : Rx := .seq r (.star r)

/-- `r?` (greedy: presence preferred). -/
def ropt (r : Rx) : Rx := .alt r .eps

/-- `\s`. -/
def rsp : Rx := .cls isPySpace

/-- `\s+`. -/
def rws : Rx := rplus rsp

/-- `\s*`. -/
def rwsStar : Rx := .star rsp

/-- `\w`. -/
def rword : Rx := .cls isWordChar

/-- `.` (any character except newline). -/
def rdot : Rx := .cls (fun c => c != '\n')

/-- `.*`. -/
def rdotStar : Rx := .star rdot

/-- Character membership in a class alternative list. -/
def chrIn (cs : String) (c : Char) : Bool :=
  cs.toList.any (fun x => x == c)

/-- A character class `[\s…]`: whitespace or one of `extra`. -/
def rwsCls (extra : String) : Rx :=
  .cls (fun c => isPySpace c || chrIn extra c)

/-- A plain character class `[…]` listing its members. -/
def rof (cs : String) : Rx :=
  .cls (fun c => chrIn cs c)

/-- A negated character class `[^…]`. -/
def rnot (cs : String) : Rx :=
  .cls (fun c => !chrIn cs c)

/-! ## Intent classification (`telegram_bot.py` lines 106–115, 274–386) -/

/-! The intent labels of `class IntentType` (string constants in the
source). -/

namespace IntentType

def GREETING : String := "greeting"

def SMALL_TALK : String := "small_talk"

def TIME_QUERY : String := "time_query"

def DATE_QUERY : String := "date_query"

def INFO_QUESTION : String := "info_question"

def REAL_TIME_DATA : String := "real_time"

def GENERAL_TASK : String := "general_task"

end IntentType

/-- `GREETING_PATTERNS` (source lines 274–280), transcribed one for one. -/
def GREETING_PATTERNS : List Rx :=
  [ rseqL [.bos, raltL [rseqL [rstr "h", rplus (rchr 'i')], rseqL [rstr "he", rplus (rchr 'y')],
      rseqL [rstr "hell", rplus (rchr 'o')], rstr "hola", rstr "yo", rstr "sup",
      rseqL [rstr "hi", rplus (rchr 'i')]], .star (rwsCls "!.,"), .eos],
    rseqL [.bos, rstr "good", rws, raltL [rstr "morning", rstr "afternoon", rstr "evening",
      rstr "night"], .star (rwsCls "!.,"), .eos],
    rseqL [.bos, raltL [rstr "wassup", rseqL [rstr "what", ropt (rchr '\''), rstr "s", rwsStar,
      rstr "up"]], .star (rwsCls "!?,"), .eos],
    rseqL [.bos, rstr "greeting", ropt (rchr 's'), .star (rwsCls "!.,"), .eos],
    rseqL [.bos, rstr "namaste", .star (rwsCls "!.,"), .eos] ]

/-- `SMALL_TALK_PATTERNS` (source lines 282–300).  The `why are you`
pattern (13th) carries no `$` in the source and therefore matches any
query that merely starts with those words. -/
def SMALL_TALK_PATTERNS : List Rx :=
  [ rseqL [.bos, raltL [rseqL [rstr "how", rws, rstr "are", rws, rstr "you"],
      rseqL [rstr "how", rws, rstr "r", rws, rstr "u"],
      rseqL [rstr "how", ropt (rchr '\''), rstr "s", rws, rstr "it", rws, rstr "going"]],
      .star (rwsCls "!?,"), .eos],
    rseqL [.bos, raltL [rseqL [rstr "thank", ropt (rchr 's')],
      rseqL [rstr "thank", rws, rstr "you"], rseqL [rstr "thank", rws, rstr "u"],
      rstr "thx", rstr "ty"], .star (rwsCls "!.,"), .eos],
    rseqL [.bos, raltL [rstr "bye", rstr "goodbye", rseqL [rstr "see", rws, rstr "you"],
      rstr "later", rstr "cya"], .star (rwsCls "!.,"), .eos],
    rseqL [.bos, raltL [rstr "ok", rstr "okay", rstr "fine", rstr "alright", rstr "sure",
      rstr "yes", rstr "no", rstr "yeah", rstr "yep", rstr "nope"], .star (rwsCls "!.,"), .eos],
    rseqL [.bos, raltL [rstr "nice", rstr "cool", rstr "great", rstr "awesome", rstr "wow",
      rstr "amazing", rstr "wonderful"], .star (rwsCls "!.,"), .eos],
    rseqL [.bos, raltL [rstr "lol", rstr "haha", rstr "hehe", rseqL [rstr "hm", rplus (rchr 'm')],
      rseqL [rstr "o", rplus (rchr 'h')], rseqL [rstr "a", rplus (rchr 'h')]],
      .star (rwsCls "!.,"), .eos],
    rseqL [.bos, raltL [rstr "good", rstr "awesome", rstr "perfect", rstr "excellent"],
      .star (rwsCls "!.,"), .eos],
    rseqL [.bos, rstr "you", ropt (rchr '\''), rstr "re", rws, rstr "welcome",
      .star (rwsCls "!.,"), .eos],
    rseqL [.bos, rstr "no", rws, rstr "problem", .star (rwsCls "!.,"), .eos],
    rseqL [.bos, rstr "what", rws, raltL [rseqL [rstr "are", rws, rstr "you", rws, rstr "doing"],
      rseqL [rstr "r", rws, rstr "u", rws, rstr "doing"]], .star (rwsCls "!?,"), .eos],
    rseqL [.bos, rstr "who", rws, rstr "are", rws, rstr "you", .star (rwsCls "!?,"), .eos],
    rseqL [.bos, rstr "what", rws, rstr "can", rws, rstr "you", rws, rstr "do",
      .star (rwsCls "!?,"), .eos],
    rseqL [.bos, rstr "why", rws, rstr "are", rws, rstr "you", .star (rwsCls "!?,")],
    rseqL [.bos, rstr "what", rws, rstr "is", rws, rstr "your", rws, rstr "name",
      .star (rwsCls "!?,"), .eos],
    rseqL [.bos, rstr "are", rws, rstr "you", rws, raltL [rseqL [rstr "a", rws, rstr "bot"],
      rstr "ai", rstr "real"], .star (rwsCls "!?,"), .eos],
    rseqL [.bos, raltL [rseqL [rstr "i", rws, rstr "am", rws, rstr "fine"],
      rseqL [rstr "i", ropt (rchr '\''), rstr "m", rws, rstr "fine"],
      rseqL [rstr "i", rws, rstr "am", rws, rstr "good"],
      rseqL [rstr "i", ropt (rchr '\''), rstr "m", rws, rstr "good"]],
      .star (rwsCls "!.,"), .eos] ]

/-- `TIME_QUERY_PATTERNS` (source lines 302–311). -/
def TIME_QUERY_PATTERNS : List Rx :=
  [ rseqL [rstr "what", rws, ropt (rseqL [rstr "is", rws]), rstr "the", rws, rstr "time"],
    rseqL [rstr "what", rws, rstr "time", rws, raltL [rseqL [rstr "is", rws, rstr "it"],
      rstr "now"]],
    rseqL [rstr "current", rws, rstr "time"],
    rseqL [rstr "time", rws, ropt (rseqL [rstr "right", rws]), rstr "now"],
    rseqL [rstr "tell", rws, ropt (rseqL [rstr "me", rws]), rstr "the", rws, rstr "time"],
    rseqL [rstr "what", ropt (rchr '\''), rstr "s", rws, rstr "the", rws, rstr "time"],
    rseqL [rstr "time", rws, rstr "please"],
    rseqL [.bos, rstr "time", .star (rwsCls "?!"), .eos] ]

/-- `DATE_QUERY_PATTERNS` (source lines 313–322). -/
def DATE_QUERY_PATTERNS : List Rx :=
  [ rseqL [rstr "what", rws, ropt (rseqL [rstr "is", rws]), rstr "today"],
    rseqL [rstr "today", ropt (rchr '\''), ropt (rchr 's'), rws, rstr "date"],
    rseqL [rstr "what", rws, rstr "day", rws, ropt (rseqL [rstr "is", rws]),
      raltL [rstr "it", rstr "today"]],
    rseqL [rstr "current", rws, rstr "date"],
    rseqL [rstr "what", rws, rstr "date", rws, ropt (rseqL [rstr "is", rws]),
      raltL [rstr "it", rstr "today"]],
    rseqL [rstr "which", rws, rstr "day", rws, ropt (rseqL [rstr "is", rws]), rstr "today"],
    rseqL [rstr "tell", rws, ropt (rseqL [rstr "me", rws]), rstr "the", rws, rstr "date"],
    rseqL [.bos, rstr "date", .star (rwsCls "?!"), .eos] ]

/-- `REAL_TIME_DATA_PATTERNS` (source lines 324–338). -/
def REAL_TIME_DATA_PATTERNS : List Rx :=
  [ rseqL [.wb, raltL [rstr "weather", rstr "temperature", rstr "forecast"], .wb],
    rseqL [.wb, raltL [rstr "stock", rstr "share", rstr "nasdaq", rstr "sensex", rstr "nifty"],
      rwsStar, ropt (raltL [rstr "price", rstr "value"]), .wb],
    rseqL [.wb, raltL [rstr "crypto", rstr "bitcoin", rstr "ethereum", rstr "btc", rstr "eth"],
      rwsStar, ropt (raltL [rstr "price", rstr "value"]), .wb],
    rseqL [.wb, raltL [rseqL [rstr "exchange", rws, rstr "rate"],
      rseqL [rstr "currency", rws, rstr "rate"], rstr "usd", rstr "eur", rstr "inr"], .wb],
    rseqL [.wb, raltL [rstr "latest", rstr "current", rstr "live", rstr "breaking",
      rstr "recent", rstr "new"], rwsStar, raltL [rstr "news", rstr "score", rstr "update",
      rstr "information", rstr "report"], .wb],
    rseqL [.wb, raltL [rstr "score", rstr "match", rstr "game", rstr "result"], .wb, rdotStar,
      .wb, raltL [rstr "live", rstr "today", rstr "now", rstr "current"], .wb],
    rseqL [.wb, raltL [rseqL [rstr "now", rws, rstr "playing"], rstr "trending", rstr "viral",
      rstr "happening"], .wb],
    rseqL [.wb, rstr "latest", rws, rword],
    rseqL [.wb, rstr "news", rws, raltL [rstr "about", rstr "on", rstr "of", rstr "from"], .wb],
    rseqL [.wb, rstr "what", rdotStar, raltL [rstr "happening",
      rseqL [rstr "going", rws, rstr "on"]], .wb],
    rseqL [.wb, rstr "today", .wb, rdotStar, .wb, raltL [rstr "news", rstr "update",
      rstr "price", rstr "score"], .wb],
    rseqL [.wb, raltL [rstr "news", rseqL [rstr "update", ropt (rchr 's')]], rws,
      raltL [rstr "today", rstr "now", rstr "latest"], .wb] ]

/-- `INFO_QUESTION_PATTERNS` (source lines 340–346). -/
def INFO_QUESTION_PATTERNS : List Rx :=
  [ rseqL [.bos, raltL [rstr "what", rstr "who", rstr "when", rstr "where", rstr "why",
      rstr "how", rstr "which"], rws],
    rseqL [raltL [rstr "tell", rstr "explain", rstr "describe"], rws, rdotStar,
      raltL [rstr "about", rseqL [rstr "to", rws, rstr "me"]]],
    rseqL [rchr '?', rwsStar, .eos],
    rseqL [.wb, raltL [rstr "define", rseqL [rstr "meaning", rws, rstr "of"],
      rstr "definition"], .wb],
    rseqL [.bos, raltL [rstr "can", rstr "could", rstr "would", rstr "will", rstr "is",
      rstr "are", rstr "do", rstr "does", rstr "did", rstr "has", rstr "have"], rws] ]

/-- `classify_intent` (source lines 348–386): lower-case and strip the
query, then evaluate the six rule groups in priority order, first match
wins, defaulting to GENERAL_TASK.  TIME/DATE/REAL_TIME/INFO groups use
`re.search`, the GREETING and SMALL_TALK groups use `re.match`. -/
def classify_intent (query : String) : String :=
  let query_clean := pyStrip (pyLower query)
  if TIME_QUERY_PATTERNS.any (fun p => reSearch p query_clean) then IntentType.TIME_QUERY
  else if DATE_QUERY_PATTERNS.any (fun p => reSearch p query_clean) then IntentType.DATE_QUERY
  else if GREETING_PATTERNS.any (fun p => reMatch p query_clean) then IntentType.GREETING
  else if SMALL_TALK_PATTERNS.any (fun p => reMatch p query_clean) then IntentType.SMALL_TALK
  else if REAL_TIME_DATA_PATTERNS.any (fun p => reSearch p query_clean) then
    IntentType.REAL_TIME_DATA
  else if INFO_QUESTION_PATTERNS.any (fun p => reSearch p query_clean) then
    IntentType.INFO_QUESTION
  else IntentType.GENERAL_TASK

/-- Data-driven form of the same cascade: the rule groups as an ordered
table of (patterns, anchored-at-start?, label) rows, evaluated first match
wins.  Rows whose Bool is `true` use `re.match`, the rest `re.search`. -/
def firstMatchClassify : List (List Rx × Bool × String) → String → String
  | [], _ => IntentType.GENERAL_TASK
  | (pats, anchored, label) :: rest, q =>
    if pats.any (fun p => if anchored then reMatch p q else reSearch p q) then label
    else firstMatchClassify rest q

/-- The rule table of `classify_intent`, in source priority order. -/
def intentRuleTable : List (List Rx × Bool × String) :=
  [ (TIME_QUERY_PATTERNS, false, IntentType.TIME_QUERY),
    (DATE_QUERY_PATTERNS, false, IntentType.DATE_QUERY),
    (GREETING_PATTERNS, true, IntentType.GREETING),
    (SMALL_TALK_PATTERNS, true, IntentType.SMALL_TALK),
    (REAL_TIME_DATA_PATTERNS, false, IntentType.REAL_TIME_DATA),
    (INFO_QUESTION_PATTERNS, false, IntentType.INFO_QUESTION) ]

/-- `firstMatchClassify` applied to the table, lower-casing and stripping
first, exactly as `classify_intent` does. -/
def tableClassify (query : String) : String :=
  firstMatchClassify intentRuleTable (pyStrip (pyLower query))

/-- An anchored FULL-STRING match: the pattern must span the entire
string.  This is the discipline the specification ascribes to the GREETING
and SMALL_TALK groups. -/
def reFullMatch (rx : Rx) (s : String) : Bool :=
  (mtchAt false rx s.toList 0).contains s.toList.length

/-- Modelled from the claim wording, for comparison with the source's
`classify_intent`: identical cascade, but the GREETING and SMALL_TALK
groups use an anchored full-string match, as the specification states. -/
def classify_intent_claim_spec (query : String) : String :=
  let query_clean := pyStrip (pyLower query)
  if TIME_QUERY_PATTERNS.any (fun p => reSearch p query_clean) then IntentType.TIME_QUERY
  else if DATE_QUERY_PATTERNS.any (fun p => reSearch p query_clean) then IntentType.DATE_QUERY
  else if GREETING_PATTERNS.any (fun p => reFullMatch p query_clean) then IntentType.GREETING
  else if SMALL_TALK_PATTERNS.any (fun p => reFullMatch p query_clean) then
    IntentType.SMALL_TALK
  else if REAL_TIME_DATA_PATTERNS.any (fun p => reSearch p query_clean) then
    IntentType.REAL_TIME_DATA
  else if INFO_QUESTION_PATTERNS.any (fun p => reSearch p query_clean) then
    IntentType.INFO_QUESTION
  else IntentType.GENERAL_TASK

/-! ## The search decision (`should_search`, source lines 1176–1208) -/

/-- Global search switch, a literal `True` in the source configuration. -/
def SEARCH_ENABLED : Bool := true

/-- `should_search` (source lines 1176–1208): search for everything except
greetings/small talk and queries whose lower-cased stripped text is
shorter than 3 characters. -/
def should_search (query : String) (intent : Option String) : Bool :=
  if !SEARCH_ENABLED then false
  else
    let query_lower := pyStrip (pyLower query)
    if query_lower.length < 3 then false
    else
      let it := match intent with
        | none => classify_intent query
        | some i => i
      if it == IntentType.GREETING || it == IntentType.SMALL_TALK then false
      else true

/-! ## The ordered-fallback search resolver (`smart_search`, source lines 2265–2363)

Each backend call is effectful; a `SearchEnv` supplies every call's
outcome for one `smart_search` invocation: `.error ()` models the call
raising, `.ok none` a `None` return, `.ok (some s)` a string result.
The `*_ENABLED` flags are literal `True` constants in the source
configuration block; the API keys are runtime environment strings whose
truthiness the env carries. -/

def TAVILY_ENABLED : Bool := true

def GOOGLE_SEARCH_ENABLED : Bool := true

def WIKIPEDIA_ENABLED : Bool := true

def JINA_ENABLED : Bool := true

/-- The search backends of the fallback chain, in source order. -/
inductive SBackend where
  | timeApi : SBackend
  | tavily : SBackend
  | google : SBackend
  | ddgInstant : SBackend
  | ddgFull : SBackend
  | wikipedia : SBackend
  | jina : SBackend
deriving DecidableEq, Repr

/-- Outcomes of the external calls one `smart_search` run can make. -/
structure SearchEnv where
  accurateTime : Except Unit (Option String)
  tavilyApiKey : Bool
  tavilyResult : Except Unit (Option String)
  googleApiKey : Bool
  googleResult : Except Unit (Option String)
  ddgInstantResult : Except Unit (Option String)
  ddgsExtraResult : Except Unit (Option String)
  ddgFullResult : Except Unit (Option String)
  wikiResult : Except Unit (Option String)
  jinaResult : Except Unit (Option String)

/-- What one `smart_search` run did: its return value (`result`,
`sources`) plus, as instrumentation, which backends it attempted. -/
structure SearchTrace where
  result : Option String
  sources : List String
  attempted : List SBackend
deriving DecidableEq, Repr

/-- Record that backend `b` was attempted before the rest of the chain
ran. -/
def consAtt (b : SBackend) (t : SearchTrace) : SearchTrace :=
  ⟨t.result, t.sources, b :: t.attempted⟩

/-- The words whose presence makes `smart_search` consult the time API
first (source line 2282). -/
def time_query_words : List String :=
  ["time", "date", "today", "now", "current time"]

/-- The time-API try-block (source lines 2284–2291): a raised exception is
swallowed, a truthy result short-circuits the whole chain. -/
def time_api_step (env : SearchEnv) : Option String :=
  match env.accurateTime with
  | .error _ => none
  | .ok none => none
  | .ok (some t) => if t != "" then some t else none

/-- The Tavily try-block (source lines 2294–2302): accepted when truthy
and longer than 50 characters. -/
def tavily_step (env : SearchEnv) : Option String :=
  match env.tavilyResult with
  | .error _ => none
  | .ok none => none
  | .ok (some s) => if s != "" && decide (50 < s.length) then some s else none

/-- The Google Custom Search try-block (source lines 2305–2313). -/
def google_step (env : SearchEnv) : Option String :=
  match env.googleResult with
  | .error _ => none
  | .ok none => none
  | .ok (some s) => if s != "" && decide (50 < s.length) then some s else none

/-- The DuckDuckGo-Instant try-block (source lines 2316–2328): an adequate
result shorter than 300 characters triggers a supplementary
`search_ddgs(query, 3)` call *inside the same try*; if that call raises,
the whole block fails and the already-adequate instant result is lost. -/
def ddg_instant_step (env : SearchEnv) : Option String :=
  match env.ddgInstantResult with
  | .error _ => none
  | .ok none => none
  | .ok (some s) =>
    if s != "" && decide (50 < s.length) then
      if s.length < 300 then
        match env.ddgsExtraResult with
        | .error _ => none
        | .ok e =>
          if pyTruthyO e then some (s ++ "\n\n**Additional Context:**\n" ++ e.getD "")
          else some s
      else some s
    else none

/-- The DuckDuckGo-full try-block (source lines 2331–2338). -/
def ddg_full_step (env : SearchEnv) : Option String :=
  match env.ddgFullResult with
  | .error _ => none
  | .ok none => none
  | .ok (some s) => if s != "" && decide (50 < s.length) then some s else none

/-- The Wikipedia try-block (source lines 2341–2349). -/
def wiki_step (env : SearchEnv) : Option String :=
  match env.wikiResult with
  | .error _ => none
  | .ok none => none
  | .ok (some s) => if s != "" && decide (50 < s.length) then some s else none

/-- The Jina try-block (source lines 2352–2360). -/
def jina_step (env : SearchEnv) : Option String :=
  match env.jinaResult with
  | .error _ => none
  | .ok none => none
  | .ok (some s) => if s != "" && decide (50 < s.length) then some s else none

/-- Tail of the chain from step 6, Jina (source lines 2352–2363): if Jina
also fails, return `(None, [])`. -/
def smart_search_from_jina (env : SearchEnv) : SearchTrace :=
  if JINA_ENABLED then
    match jina_step env with
    | some r => ⟨some r, ["Jina AI"], [.jina]⟩
    | none => consAtt .jina ⟨none, [], []⟩
  else ⟨none, [], []⟩

/-- Tail of the chain from step 5, Wikipedia (source lines 2341–2349). -/
def smart_search_from_wiki (env : SearchEnv) : SearchTrace :=
  if WIKIPEDIA_ENABLED then
    match wiki_step env with
    | some r => ⟨some r, ["Wikipedia"], [.wikipedia]⟩
    | none => consAtt .wikipedia (smart_search_from_jina env)
  else smart_search_from_jina env

/-- Tail of the chain from step 4, DuckDuckGo full (source lines
2331–2338); this step has no enabling guard. -/
def smart_search_from_ddg_full (env : SearchEnv) : SearchTrace :=
  match ddg_full_step env with
  | some r => ⟨some r, ["DuckDuckGo"], [.ddgFull]⟩
  | none => consAtt .ddgFull (smart_search_from_wiki env)

/-- Tail of the chain from step 3, DuckDuckGo Instant (source lines
2316–2328); no enabling guard. -/
def smart_search_from_ddg_instant (env : SearchEnv) : SearchTrace :=
  match ddg_instant_step env with
  | some r => ⟨some r, ["DuckDuckGo Instant"], [.ddgInstant]⟩
  | none => consAtt .ddgInstant (smart_search_from_ddg_full env)

/-- Tail of the chain from step 2, Google (source lines 2305–2313). -/
def smart_search_from_google (env : SearchEnv) : SearchTrace :=
  if GOOGLE_SEARCH_ENABLED && env.googleApiKey then
    match google_step env with
    | some r => ⟨some r, ["Google Search"], [.google]⟩
    | none => consAtt .google (smart_search_from_ddg_instant env)
  else smart_search_from_ddg_instant env

/-- Tail of the chain from step 1, Tavily (source lines 2294–2302). -/
def smart_search_from_tavily (env : SearchEnv) : SearchTrace :=
  if TAVILY_ENABLED && env.tavilyApiKey then
    match tavily_step env with
    | some r => ⟨some r, ["Tavily AI Search"], [.tavily]⟩
    | none => consAtt .tavily (smart_search_from_google env)
  else smart_search_from_google env

/-- `smart_search` (source lines 2265–2363) with instrumentation: the
time-API short-circuit for time/date-flavoured queries, then the
Tavily → Google → DDG-Instant → DDG-full → Wikipedia → Jina cascade. -/
def smart_search_trace (query : String) (env : SearchEnv) : SearchTrace :=
  let query_lower := pyLower query
  let is_time_query := time_query_words.any (fun w => strContains query_lower w)
  if is_time_query then
    match time_api_step env with
    | some t => ⟨some t, ["Time API"], [.timeApi]⟩
    | none => consAtt .timeApi (smart_search_from_tavily env)
  else smart_search_from_tavily env

/-- The pair `smart_search` itself returns: `(search_results,
sources_list)`. -/
def smart_search (query : String) (env : SearchEnv) : Option String × List String :=
  ((smart_search_trace query env).result, (smart_search_trace query env).sources)

/-! ### Spec-side form of the fallback chain (for the refinement theorem) -/

/-- Adequacy as the specification words it: a non-empty result whose
length exceeds 50 characters; a raised exception or `None` is "no
result". -/
def adequateResult : Except Unit (Option String) → Option String
  | .ok (some s) => if 50 < s.length then some s else none
  | _ => none

/-- Spec-side yield of the time-service step: any truthy result is
accepted immediately. -/
def timeServiceYield : Except Unit (Option String) → Option String
  | .ok (some t) => if t != "" then some t else none
  | _ => none

/-- Spec-side yield of the DuckDuckGo-Instant step, as amended: an
adequate result under 300 characters survives only if the supplementary
merge call does not raise (a merge exception discards it), and is extended
with the merge text when that text is truthy. -/
def instantMergedYield (instant extra : Except Unit (Option String)) : Option String :=
  match adequateResult instant with
  | none => none
  | some s =>
    if s.length < 300 then
      match extra with
      | .error _ => none
      | .ok e =>
        if pyTruthyO e then some (s ++ "\n\n**Additional Context:**\n" ++ e.getD "")
        else some s
    else some s

/-- One spec-side chain entry: backend, enabling guard, yield when
attempted, source label. -/
def ChainStep : Type := SBackend × Bool × Option String × String

/-- The ordered fallback chain as the specification describes it: walk the
steps in order; skip a disabled step; stop at the first attempted step
that yields, returning its result under its label alone; return
`(none, [])` when every step has failed. -/
def chainRun : List ChainStep → SearchTrace
  | [] => ⟨none, [], []⟩
  | (b, g, out, label) :: rest =>
    if g then
      match out with
      | some r => ⟨some r, [label], [b]⟩
      | none => consAtt b (chainRun rest)
    else chainRun rest

/-- The seven chain steps of the claim, in its fixed order, with their
guards and spec-side yields. -/
def searchChainSteps (query : String) (env : SearchEnv) : List ChainStep :=
  [ (.timeApi, time_query_words.any (fun w => strContains (pyLower query) w),
      timeServiceYield env.accurateTime, "Time API"),
    (.tavily, TAVILY_ENABLED && env.tavilyApiKey, adequateResult env.tavilyResult,
      "Tavily AI Search"),
    (.google, GOOGLE_SEARCH_ENABLED && env.googleApiKey, adequateResult env.googleResult,
      "Google Search"),
    (.ddgInstant, true, instantMergedYield env.ddgInstantResult env.ddgsExtraResult,
      "DuckDuckGo Instant"),
    (.ddgFull, true, adequateResult env.ddgFullResult, "DuckDuckGo"),
    (.wikipedia, WIKIPEDIA_ENABLED, adequateResult env.wikiResult, "Wikipedia"),
    (.jina, JINA_ENABLED, adequateResult env.jinaResult, "Jina AI") ]

/-- The fixed backend order of the claim. -/
def searchBackendOrder : List SBackend :=
  [.timeApi, .tavily, .google, .ddgInstant, .ddgFull, .wikipedia, .jina]

/-! ## The generation race (`race_ai_models`, source lines 2566–2602)

The two `asyncio.create_task` calls launch the Groq and Cerebras backend
coroutines; each is modelled by its completion time (an abstract instant
on a common clock) and its outcome — `.ok (text, provider)` for a normal
return (`call_*_api` returns a non-empty tuple, so the source's
`if result:` truthiness test always passes on success) or `.error e` for a
raised exception.  `asyncio.wait(..., FIRST_COMPLETED)` returns the set of
tasks completing at the earliest instant; on a tie the done-set is
iterated in task-creation order. -/

/-- Decidable equality for `Except`, so that concrete task outcomes can be
compared by `decide`. -/
instance {ε α : Type} [DecidableEq ε] [DecidableEq α] : DecidableEq (Except ε α) := fun a b =>
  match a, b with
  | .ok x, .ok y =>
    if h : x = y then isTrue (congrArg Except.ok h)
    else isFalse (fun hh => h (Except.ok.inj hh))
  | .ok _, .error _ => isFalse (fun hh => Except.noConfusion hh)
  | .error _, .ok _ => isFalse (fun hh => Except.noConfusion hh)
  | .error x, .error y =>
    if h : x = y then isTrue (congrArg Except.error h)
    else isFalse (fun hh => h (Except.error.inj hh))

/-- One backend task of the race: completion time and outcome. -/
structure AITask where
  time : Nat
  outcome : Except String (String × String)
deriving DecidableEq, Repr

/-- What one race run produced: the value returned (or the exception the
function raises after exhaustion) and which tasks were cancelled. -/
structure RaceResult where
  result : Except String (String × String)
  groqCancelled : Bool
  cerebrasCancelled : Bool
deriving DecidableEq, Repr

/-- The exhaustion exception's message (source line 2602). -/
def raceAllFailedMsg : String := "All AI models failed to respond."

/-- `race_ai_models` (source lines 2566–2602): wait for the first
completion; if a done task returned, cancel the pending tasks and return
its result; if the first-completed task(s) failed, wait on the remaining
task and return its result if it succeeds; raise the exhaustion exception
only after every task has finished or failed. -/
def race_ai_models (groq cerebras : AITask) : RaceResult :=
  if groq.time < cerebras.time then
    match groq.outcome with
    | .ok v => ⟨.ok v, false, true⟩
    | .error _ =>
      match cerebras.outcome with
      | .ok v => ⟨.ok v, false, false⟩
      | .error _ => ⟨.error raceAllFailedMsg, false, false⟩
  else if cerebras.time < groq.time then
    match cerebras.outcome with
    | .ok v => ⟨.ok v, true, false⟩
    | .error _ =>
      match groq.outcome with
      | .ok v => ⟨.ok v, false, false⟩
      | .error _ => ⟨.error raceAllFailedMsg, false, false⟩
  else
    match groq.outcome with
    | .ok v => ⟨.ok v, false, false⟩
    | .error _ =>
      match cerebras.outcome with
      | .ok v => ⟨.ok v, false, false⟩
      | .error _ => ⟨.error raceAllFailedMsg, false, false⟩

/-- Of two distinct-time tasks, the one completing first. -/
def raceFirst (groq cerebras : AITask) : AITask :=
  if groq.time < cerebras.time then groq else cerebras

/-- Of two distinct-time tasks, the one completing second. -/
def raceSecond (groq cerebras : AITask) : AITask :=
  if groq.time < cerebras.time then cerebras else groq

/-! ## The response-shape planner
(`AdaptiveResponseEngine.get_dynamic_response_config`, source lines
1900–1998) -/

/-- A response configuration dict: token cap, length instruction,
style label. -/
structure ResponseConfig where
  max_tokens : Nat
  length_instruction : String
  response_style : String
deriving DecidableEq, Repr

/-- `explicit_detail_keywords` (source lines 1911–1917). -/
def explicit_detail_keywords : List String :=
  ["detailed", "elaborate", "more about", "deep dive", "tell me everything", "comprehensive",
   "in detail", "step by step", "full explanation", "complete answer", "thorough",
   "extensive", "explain in detail", "give me details", "more information", "tell me more",
   "long answer", "detailed answer"]

/-- `complex_question_patterns` (source lines 1920–1927). -/
def complex_question_patterns : List String :=
  ["how to ", "how do i ", "how can i ", "what is the best way", "why does ", "why is ",
   "what are the ", "explain how", "explain why", "explain what", "difference between",
   "compare ", "versus ", "advantages and disadvantages", "pros and cons", "step by step",
   "guide to", "tutorial"]

/-- The brevity keywords (source lines 1936–1939). -/
def brevity_keywords : List String :=
  ["briefly", "short", "quick", "tldr", "just tell me", "simple", "in short", "summarize",
   "one line", "quick answer", "be brief"]

/-- The CASUAL configuration returned for greetings/small talk (source
lines 1947–1952). -/
def casualConfig : ResponseConfig :=
  ⟨500,
   "RESPONSE LENGTH: 2-4 sentences only.\nBe warm, friendly, and conversational. Keep it brief - this is casual chat.",
   "casual"⟩

/-- The BRIEF configuration (source lines 1957–1963). -/
def briefConfig : ResponseConfig :=
  ⟨800,
   "RESPONSE LENGTH: ~50 words maximum (about 300 characters).\nGive a direct, concise answer. User specifically wants it SHORT.\nSkip elaborate explanations - get to the point immediately.",
   "brief"⟩

/-- The DETAILED configuration (source lines 1968–1982). -/
def detailedConfig : ResponseConfig :=
  ⟨6000,
   "RESPONSE LENGTH: ~400-500 words (approximately 2500 characters).\nProvide a COMPREHENSIVE, DETAILED response. The user wants thorough information.\n\nREQUIREMENTS:\n• Cover all relevant aspects of the topic\n• Include examples, facts, and context\n• Use numbered sections for organization\n• Break complex topics into clear parts\n• Be educational and complete\n\nUse **bold** for key terms, numbered lists for steps, bullet points for features.",
   "detailed"⟩

/-- The NORMAL (default) configuration (source lines 1986–1998). -/
def normalConfig : ResponseConfig :=
  ⟨4000,
   "RESPONSE LENGTH: ~200-300 words (about 1500 characters).\n\nProvide a clear, informative answer that:\n• Answers the question directly and completely\n• Includes relevant context and details\n• Uses formatting when it helps clarity\n• Balances thoroughness with readability\n\nUse **bold** for key terms, numbered lists for steps or multiple items.",
   "normal"⟩

namespace AdaptiveResponseEngine

/-- `get_dynamic_response_config` (source lines 1900–1998): casual for
greetings/small talk, else brief on a brevity keyword, else detailed on a
detail keyword / complex-question pattern / 12-or-more-word query, else
normal.  (`has_search_results` is accepted and ignored, as in the
source.) -/
def get_dynamic_response_config (query : String) (intent : String)
    (has_search_results : Bool) : ResponseConfig :=
  let query_lower := pyStrip (pyLower query)
  let word_count := (pySplit query).length
  let wants_detail :=
    explicit_detail_keywords.any (fun kw => strContains query_lower kw) ||
    complex_question_patterns.any (fun pat => strContains query_lower pat) ||
    decide (word_count ≥ 12)
  let wants_short := brevity_keywords.any (fun kw => strContains query_lower kw)
  let is_greeting := intent == IntentType.GREETING || intent == IntentType.SMALL_TALK
  if is_greeting then casualConfig
  else if wants_short then briefConfig
  else if wants_detail then detailedConfig
  else normalConfig

end AdaptiveResponseEngine

/-! ## Response post-processing (`validate_and_clean_response`, source
lines 737–777) -/

/-- `unwanted_patterns` (source lines 752–763), transcribed one for one;
each is substituted away with flags `re.IGNORECASE | re.MULTILINE`. -/
def unwanted_patterns : List Rx :=
  [ rseqL [.bos, raltL [rstr "As an AI", rstr "I'm an AI", rstr "I am an AI",
      rstr "As a language model"], .star (rnot ".!?"), rof ".!?", rwsStar],
    rseqL [.bos, raltL [rstr "I don't have personal opinions",
      rstr "I cannot provide personal opinions"], .star (rnot ".!?"), rof ".!?", rwsStar],
    rseqL [.bos, raltL [rstr "Here's", rstr "Here is"], rchr ' ',
      ropt (raltL [rstr "the ", rstr "my ", rseqL [rchr 'a', ropt (rchr 'n'), rchr ' ']]),
      raltL [rstr "response", rstr "answer", rstr "information"], .star (rnot ":"),
      rchr ':', rwsStar],
    rseqL [.star (rchr '\n'), rstr "--", rplus (rchr '-'), rwsStar,
      rstr "This is casual chat", .star (rnot "-"), rstr "--", rplus (rchr '-'), rwsStar],
    rseqL [.star (rchr '\n'), rstr "--", rplus (rchr '-'), rwsStar,
      rstr "Give a brief", .star (rnot "-"), rstr "--", rplus (rchr '-'), rwsStar],
    rseqL [.star (rchr '\n'), rstr "--", rplus (rchr '-'), rwsStar,
      rstr "Write a helpful", .star (rnot "-"), rstr "--", rplus (rchr '-'), rwsStar],
    rseqL [.star (rchr '\n'), rstr "--", rplus (rchr '-'), rwsStar,
      rstr "The user wants", .star (rnot "-"), rstr "--", rplus (rchr '-'), rwsStar],
    rseqL [.bos, raltL [rseqL [rstr "So", ropt (rchr ','), rws],
      rseqL [rstr "Well", ropt (rchr ','), rws],
      rseqL [rstr "Certainly", ropt (rchr '!'), rws],
      rseqL [rstr "Absolutely", ropt (rchr '!'), rws],
      rseqL [rstr "Great question", ropt (rchr '!'), rws],
      rseqL [rstr "Sure", ropt (rchr '!'), rws]]],
    rseqL [.bos, raltL [rstr "I'd be happy to", rstr "I would be happy to",
      rstr "I'm happy to"], .star (rnot ".!?"), ropt (rof ".!?"), rwsStar] ]

/-- The `\n{3,}` collapse pattern (source line 770, substituted without
flags). -/
def blankLinesPattern : Rx :=
  rseqL [rchr '\n', rchr '\n', rchr '\n', .star (rchr '\n')]

/-- The intermediate `cleaned` value of `validate_and_clean_response`:
the ordered substitutions, the blank-line collapse, then `strip()`. -/
def cleaned_of (response : String) : String :=
  let cleaned := unwanted_patterns.foldl (fun acc p => reSub true p "" acc) response
  let cleaned := reSub false blankLinesPattern "\n\n" cleaned
  pyStrip cleaned

/-- `validate_and_clean_response` (source lines 737–777): empty/non-string
input is returned as is; if the substitutions strip everything, fall back
to the stripped original. -/
def validate_and_clean_response (response : String) (query : String) : String :=
  if response == "" then response
  else
    let cleaned := cleaned_of response
    if cleaned == "" then pyStrip response else cleaned

/-! ## Query preprocessing for search (source lines 1281–1302 and
2366–2424) -/

/-- `filler_words` (source lines 1291–1292). -/
def filler_words : List String :=
  ["please", "can you", "could you", "tell me", "i want to know", "what is the",
   "who is the", "explain", "describe", "help me"]

/-- The `cleaned_query` value of `rewrite_query_for_search`: lower-case and
strip, replace each filler word by a space in list order, normalize
whitespace, truncate to 400 characters. -/
def rewritten_core (query : String) : String :=
  let query_lower := pyStrip (pyLower query)
  let cleaned_query := filler_words.foldl (fun acc f => strReplace acc f " ") query_lower
  let cleaned_query := joinSpace (pySplit cleaned_query)
  if cleaned_query.length > 400 then String.mk (cleaned_query.toList.take 400)
  else cleaned_query

/-- `rewrite_query_for_search` (source lines 1281–1302): the cleaned query,
or the original query unchanged when cleaning left nothing. -/
def rewrite_query_for_search (query : String) : String :=
  let c := rewritten_core query
  if c != "" then c else query

/-- `relative_date_context` (source lines 2378–2385), in insertion
order. -/
def relative_date_context : List (String × String) :=
  [("yesterday", "one day ago recent"), ("tomorrow", "upcoming future scheduled"),
   ("last week", "past week recent"), ("next week", "upcoming week future"),
   ("last month", "past month recent"), ("next month", "upcoming month future")]

/-- The single-word `expansions` dict (source lines 2395–2409). -/
def single_word_expansions : List (String × String) :=
  [("bitcoin", "bitcoin BTC current price USD live"),
   ("ethereum", "ethereum ETH current price USD live"),
   ("weather", "weather forecast current conditions"),
   ("news", "latest breaking news headlines"),
   ("stocks", "stock market indices live"),
   ("gold", "gold price per gram USD live"),
   ("silver", "silver price USD live"),
   ("sensex", "BSE sensex index live India"),
   ("nifty", "NSE nifty 50 live India"),
   ("crypto", "cryptocurrency market prices live"),
   ("time", "current time now live"),
   ("date", "current date today"),
   ("today", "today current date news")]

/-- `news_keywords` (source line 2418). -/
def news_keywords : List String :=
  ["news", "happening", "going on", "update", "updates"]

/-- `expand_query_for_search` (source lines 2366–2424): append relative-
date context, expand known single-word queries, prepend "latest" to news
queries, otherwise leave the query alone. -/
def expand_query_for_search (query : String) : String :=
  let query_lower := pyStrip (pyLower query)
  match relative_date_context.find? (fun rc => strContains query_lower rc.1) with
  | some rc => query ++ " " ++ rc.2
  | none =>
    match single_word_expansions.find? (fun kv => kv.1 == query_lower) with
    | some kv => kv.2
    | none =>
      if news_keywords.any (fun kw => strContains query_lower kw) &&
          !strContains query_lower "latest" then
        "latest " ++ query
      else query

/-! ## Events sub-route (source lines 2639–2654 and 3737–3754) -/

/-- One `EventResult` as `format_events_for_display` consumes it. -/
structure EventResultItem where
  title : String
  source : String
deriving DecidableEq, Repr

/-- `EventsIntelligenceAgent.format_events_for_display` (source lines
3750–3754). -/
def format_events_for_display (events : List EventResultItem) : String :=
  if events.isEmpty then "No events found."
  else
    "**Found " ++ toString events.length ++ " Events:**\n" ++
      String.join (events.enum.map
        (fun ie => toString (ie.1 + 1) ++ ". " ++ ie.2.title ++ " (" ++ ie.2.source ++ ")\n"))

/-- `event_keywords` (source line 2641). -/
def event_keywords : List String :=
  ["event", "meetup", "conference", "workshop", "seminar", "webinar"]

/-! ## The generation entry point (`get_llama_response`, source lines
2605–2811)

The embedding keeps the function's observable behaviour toward its caller
and the session store: the returned reply string and the new conversation
history.  Effectful sub-calls are supplied by a `GenEnv`: the session
lookup (`get_user_session` — `.error` a raised exception, `.ok false` a
falsy session, `.ok true` a session holding the given history), the
events agent, the search backends, and the model race.  Prompt assembly
(system prompt with timestamp, search-directive block, length/format
instructions) only shapes the request the race sends to the backends,
whose outcome `raceOutcome` already abstracts, so the prompt text is not
re-exported here. -/

/-- One `{"role": ..., "content": ...}` message of the conversation
history. -/
structure Turn where
  role : String
  content : String
deriving DecidableEq, Repr

/-- `MAX_HISTORY` (source line 64). -/
def MAX_HISTORY : Nat := 10

/-- The history pruning of source lines 2619–2622:
`conversation_history[-(MAX_HISTORY * 2):]` when longer than
`MAX_HISTORY * 2`. -/
def prune_history (h : List Turn) : List Turn :=
  if h.length > MAX_HISTORY * 2 then h.drop (h.length - MAX_HISTORY * 2) else h

/-- Environment of one `get_llama_response` call. -/
structure GenEnv where
  sessionOk : Except Unit Bool
  eventsOutcome : Except Unit (List EventResultItem)
  searchEnv : SearchEnv
  raceOutcome : Except String (String × String)

/-- What one `get_llama_response` call yields: the reply text and the
session's conversation history after the call. -/
structure GenResult where
  reply : String
  newHistory : List Turn
deriving DecidableEq, Repr

/-- Source line 2610. -/
def initSessionFailMsg : String :=
  "❌ Sorry, I couldn't initialize your AI session properly. Please try /clear or contact the admin."

/-- Source line 2788. -/
def bothProvidersFailedMsg : String :=
  "❌ Error connecting to AI Service. Both Groq and Cerebras failed."

/-- Source line 2811 (the boundary `except` handler's reply). -/
def unexpectedErrorMsg : String :=
  "❌ Sorry, an unexpected error occurred while processing your request. Please try again!"

/-- The search-results acquisition of source lines 2639–2658: the events
sub-route for event-flavoured queries (its exception swallowed, its hits
formatted under the `EVENTS FOUND:` banner), then `smart_search` on the
expanded query when the events route produced nothing. -/
def gen_search_results (user_query expanded_query : String) (env : GenEnv) :
    Option String × List String :=
  let is_event_query := event_keywords.any (fun kw => strContains (pyLower user_query) kw)
  let eventsResult : Option String × List String :=
    if is_event_query then
      match env.eventsOutcome with
      | .error _ => (none, [])
      | .ok event_results =>
        if !event_results.isEmpty then
          (some ("EVENTS FOUND:\n" ++ format_events_for_display event_results),
           ["Events Intelligence Agent"])
        else (none, [])
    else (none, [])
  if pyTruthyO eventsResult.1 then eventsResult
  else smart_search expanded_query env.searchEnv

/-- The search-context truncation of source lines 2664–2669: a truthy
result longer than 3000 characters is cut and marked. -/
def truncate_search_context : Option String → Option String
  | none => none
  | some sr =>
    if sr != "" && decide (3000 < sr.length) then
      some (String.mk (sr.toList.take 3000) ++ "\n... [truncated for accuracy]")
    else some sr

/-- `get_llama_response` (source lines 2605–2811).  Control flow mirrors
the source: a raised session lookup is caught by the boundary handler
(`unexpectedErrorMsg`); a falsy session returns `initSessionFailMsg`;
otherwise prune the history, run the intent-gated search, race the models
(exhaustion: `bothProvidersFailedMsg`, history left as pruned), then
append either the redacted marker pair (search-augmented turn) or the raw
query/response pair, and return the cleaned response text. -/
def get_llama_response (history : List Turn) (env : GenEnv) (user_content : String)
    (intent : Option String) : GenResult :=
  match env.sessionOk with
  | .error _ => ⟨unexpectedErrorMsg, history⟩
  | .ok false => ⟨initSessionFailMsg, history⟩
  | .ok true =>
    let conversation_history := prune_history history
    let user_query := user_content
    let searchPair : Option String × List String :=
      if should_search user_query intent then
        gen_search_results user_query (expand_query_for_search user_query) env
      else (none, [])
    let search_results := truncate_search_context searchPair.1
    match env.raceOutcome with
    | .error _ => ⟨bothProvidersFailedMsg, conversation_history⟩
    | .ok (response_text, _provider) =>
      let newHistory :=
        if pyTruthyO search_results then
          conversation_history ++
            [⟨"user", "[Search query: " ++ user_query ++ "]"⟩,
             ⟨"assistant", "[Answered with real-time search data]"⟩]
        else
          conversation_history ++ [⟨"user", user_query⟩, ⟨"assistant", response_text⟩]
      ⟨validate_and_clean_response response_text user_query, newHistory⟩

/-- One scripted call of `get_llama_response`: its environment, query and
intent. -/
structure GenCall where
  env : GenEnv
  query : String
  intent : Option String

/-- Run a list of scripted calls against an initially empty session
history (most recent call first in the list), returning the final
history. -/
def run_llama_calls : List GenCall → List Turn
  | [] => []
  | c :: cs => (get_llama_response (run_llama_calls cs) c.env c.query c.intent).newHistory

/-! ## Concrete inputs used by counterexamples and witnesses -/

/-- A search environment where every backend yields nothing. -/
def emptySearchEnv : SearchEnv :=
  { accurateTime := .ok none
    tavilyApiKey := false
    tavilyResult := .ok none
    googleApiKey := false
    googleResult := .ok none
    ddgInstantResult := .ok none
    ddgsExtraResult := .ok none
    ddgFullResult := .ok none
    wikiResult := .ok none
    jinaResult := .ok none }

/-- Environment of the repeated-greeting scenario: session fine, no search
(greeting intent), the race succeeding every time. -/
def c1DemoEnv : GenEnv :=
  ⟨.ok true, .ok [], emptySearchEnv, .ok ("Hello! How can I help you today?", "Groq")⟩

/-- The session history after `n` identical greeting calls starting from
an empty history. -/
def c1Run : Nat → List Turn
  | 0 => []
  | n + 1 =>
    (get_llama_response (c1Run n) c1DemoEnv "hello there my friend"
      (some IntentType.GREETING)).newHistory

/-- An adequate (51–299 chars) DuckDuckGo-Instant result. -/
def ddgInstantSample : String := String.mk (List.replicate 60 'x')

/-- An adequate DuckDuckGo-full result. -/
def ddgFullSample : String := String.mk (List.replicate 80 'y')

/-- Environment for the discarded-adequate-result scenario: Tavily and
Google yield nothing, DuckDuckGo Instant yields an adequate short result,
the supplementary merge call raises, DuckDuckGo full then yields. -/
def c3CounterEnv : SearchEnv :=
  { accurateTime := .ok none
    tavilyApiKey := true
    tavilyResult := .ok none
    googleApiKey := true
    googleResult := .ok none
    ddgInstantResult := .ok (some ddgInstantSample)
    ddgsExtraResult := .error ()
    ddgFullResult := .ok (some ddgFullSample)
    wikiResult := .ok none
    jinaResult := .ok none }

/-- A Groq task that fails first. -/
def groqLoserTask : AITask := ⟨5, .error "Groq rate limited"⟩

/-- A Cerebras task that succeeds later. -/
def cerebrasWinnerTask : AITask := ⟨7, .ok ("Here is the answer.", "Cerebras")⟩

/-- An adequate Tavily result for the redaction witness. -/
def tavilySample : String := String.mk (List.replicate 60 't')

/-- Search environment where Tavily answers adequately. -/
def c5WitnessSearchEnv : SearchEnv :=
  { accurateTime := .ok none
    tavilyApiKey := true
    tavilyResult := .ok (some tavilySample)
    googleApiKey := false
    googleResult := .ok none
    ddgInstantResult := .ok none
    ddgsExtraResult := .ok none
    ddgFullResult := .ok none
    wikiResult := .ok none
    jinaResult := .ok none }

/-- Environment of the redaction witness: search succeeds via Tavily, the
race succeeds. -/
def c5WitnessEnv : GenEnv :=
  ⟨.ok true, .ok [], c5WitnessSearchEnv, .ok ("Paris is the capital of France.", "Groq")⟩

/-- Environment of the exhausted-race witness: session fine, both
providers fail. -/
def c7WitnessEnv : GenEnv :=
  ⟨.ok true, .ok [], emptySearchEnv, .error "All AI models failed to respond."⟩

/-! ## Theorems -/

/-- A string longer than 50 characters is truthy. -/
theorem bne_empty_of_fifty_lt {s : String} (h : 50 < s.length) : (s != "") = true := by
  rw [bne_iff_ne]
  intro he
  subst he
  simp [String.length] at h

/-- C4: with global search enabled, `should_search q (some i)` is false
exactly when the intent is GREETING or SMALL_TALK or the lower-cased
stripped query is shorter than 3 characters; for every other intent it is
true as soon as the stripped query has length at least 3. -/
theorem should_search_characterization (q i : String) :
    (should_search q (some i) = false ↔
      (i = IntentType.GREETING ∨ i = IntentType.SMALL_TALK ∨
        (pyStrip (pyLower q)).length < 3)) ∧
    (i ≠ IntentType.GREETING → i ≠ IntentType.SMALL_TALK →
      3 ≤ (pyStrip (pyLower q)).length → should_search q (some i) = true) := by
  have hred : should_search q (some i) =
      (if (pyStrip (pyLower q)).length < 3 then false
       else if i == IntentType.GREETING || i == IntentType.SMALL_TALK then false
       else true) := rfl
  constructor
  · rw [hred]
    split_ifs with h1 h2
    · simp [h1]
    · rcases Bool.or_eq_true_iff.mp h2 with h | h
      · simp [beq_iff_eq.mp h]
      · simp [beq_iff_eq.mp h]
    · simp only [Bool.or_eq_true_iff, beq_iff_eq] at h2
      push_neg at h2
      constructor
      · intro hc
        exact absurd hc (by simp)
      · rintro (h | h | h)
        · exact absurd h h2.1
        · exact absurd h h2.2
        · exact absurd h h1
  · intro hg hs hlen
    rw [hred]
    have h1 : ¬((pyStrip (pyLower q)).length < 3) := by omega
    have h2 : (i == IntentType.GREETING || i == IntentType.SMALL_TALK) = false := by
      simp [hg, hs]
    simp [h1, h2]

/-- C4 witness: a time query of length at least 3 with TIME_QUERY intent
triggers search. -/
theorem should_search_characterization_witness :
    should_search "what is the time" (some IntentType.TIME_QUERY) = true :=
  (should_search_characterization "what is the time" IntentType.TIME_QUERY).2
    (by decide) (by decide) (by decide)

/-- C6 counterexample: the claim calls the SMALL_TALK group an anchored
full-string match, but the `why are you` pattern carries no `$`: on
"why are you so slow" the source classifier answers SMALL_TALK from a
prefix match, while the full-string discipline the claim describes would
answer INFO_QUESTION. -/
theorem classify_intent_full_string_counterexample :
    classify_intent "why are you so slow" = IntentType.SMALL_TALK ∧
    classify_intent_claim_spec "why are you so slow" = IntentType.INFO_QUESTION :=
  ⟨by decide, by decide⟩

/-- C6 as amended: `classify_intent` is the first-match-wins evaluation of
the ordered rule table TIME_QUERY, DATE_QUERY, GREETING (anchored),
SMALL_TALK (anchored at the start — all of its patterns except
`why are you` also require the full string), REAL_TIME_DATA (substring),
INFO_QUESTION (substring), defaulting to GENERAL_TASK, case-insensitively;
and the claim's concrete examples classify as stated, with
"why are you so slow" exhibiting the prefix-anchored small-talk match. -/
theorem classify_intent_amended :
    (∀ q, classify_intent q = tableClassify q) ∧
    classify_intent "hello" = IntentType.GREETING ∧
    classify_intent "hi!!" = IntentType.GREETING ∧
    classify_intent "good morning" = IntentType.GREETING ∧
    classify_intent "thanks" = IntentType.SMALL_TALK ∧
    classify_intent "ok" = IntentType.SMALL_TALK ∧
    classify_intent "what is the time" = IntentType.TIME_QUERY ∧
    classify_intent "bitcoin price today" = IntentType.REAL_TIME_DATA ∧
    classify_intent "why are you so slow" = IntentType.SMALL_TALK :=
  ⟨fun _ => rfl, by decide, by decide, by decide, by decide, by decide, by decide,
    by decide, by decide⟩

/-- C2: in the Groq/Cerebras race with distinct completion times, (a) if
the first-completing task succeeds, the race returns its result and the
still-in-flight task is cancelled; (b) if the first-completing task
failed, the race waits on the remaining task and returns its result when
it succeeds; (c) the exhaustion exception is raised only after both tasks
have finished or failed. -/
theorem race_ai_models_semantics (groq cerebras : AITask)
    (hne : groq.time ≠ cerebras.time) :
    (∀ v, (raceFirst groq cerebras).outcome = .ok v →
      (race_ai_models groq cerebras).result = .ok v ∧
      (if groq.time < cerebras.time then (race_ai_models groq cerebras).cerebrasCancelled
       else (race_ai_models groq cerebras).groqCancelled) = true) ∧
    (∀ e v, (raceFirst groq cerebras).outcome = .error e →
      (raceSecond groq cerebras).outcome = .ok v →
      (race_ai_models groq cerebras).result = .ok v) ∧
    (∀ e e', (raceFirst groq cerebras).outcome = .error e →
      (raceSecond groq cerebras).outcome = .error e' →
      (race_ai_models groq cerebras).result = .error raceAllFailedMsg) := by
  rcases Nat.lt_or_gt_of_ne hne with hlt | hgt
  · have hnl : ¬cerebras.time < groq.time := Nat.lt_asymm hlt
    refine ⟨?_, ?_, ?_⟩
    · intro v hv
      simp only [raceFirst, if_pos hlt] at hv
      simp [race_ai_models, if_pos hlt, hv]
    · intro e v he hv
      simp only [raceFirst, if_pos hlt] at he
      simp only [raceSecond, if_pos hlt] at hv
      simp [race_ai_models, if_pos hlt, he, hv]
    · intro e e' he he'
      simp only [raceFirst, if_pos hlt] at he
      simp only [raceSecond, if_pos hlt] at he'
      simp [race_ai_models, if_pos hlt, he, he']
  · have hlt' : cerebras.time < groq.time := hgt
    have hnl : ¬groq.time < cerebras.time := Nat.lt_asymm hlt'
    refine ⟨?_, ?_, ?_⟩
    · intro v hv
      simp only [raceFirst, if_neg hnl] at hv
      simp [race_ai_models, if_neg hnl, if_pos hlt', hv]
    · intro e v he hv
      simp only [raceFirst, if_neg hnl] at he
      simp only [raceSecond, if_neg hnl] at hv
      simp [race_ai_models, if_neg hnl, if_pos hlt', he, hv]
    · intro e e' he he'
      simp only [raceFirst, if_neg hnl] at he
      simp only [raceSecond, if_neg hnl] at he'
      simp [race_ai_models, if_neg hnl, if_pos hlt', he, he']

/-- C2 witness: Groq completes first at time 5 and fails, Cerebras
succeeds at time 7; the race waits and returns the Cerebras result. -/
theorem race_ai_models_semantics_witness :
    (race_ai_models groqLoserTask cerebrasWinnerTask).result =
      .ok ("Here is the answer.", "Cerebras") :=
  (race_ai_models_semantics groqLoserTask cerebrasWinnerTask (by decide)).2.1
    "Groq rate limited" ("Here is the answer.", "Cerebras") rfl rfl

/-- The time-API try-block equals the spec-side time-service yield. -/
theorem time_api_step_eq (env : SearchEnv) :
    time_api_step env = timeServiceYield env.accurateTime := by
  unfold time_api_step timeServiceYield
  rcases env.accurateTime with e | o
  · rfl
  · rcases o with _ | t <;> rfl

/-- The truthy-and-over-50 test of a try-block equals the specification's
adequacy (a non-empty result longer than 50 characters). -/
theorem step_adequacy (r : Except Unit (Option String)) :
    (match r with
     | .error _ => none
     | .ok none => none
     | .ok (some s) => if s != "" && decide (50 < s.length) then some s else none) =
      adequateResult r := by
  unfold adequateResult
  rcases r with e | o
  · rfl
  · rcases o with _ | s
    · rfl
    · by_cases h : 50 < s.length
      · simp [h, bne_empty_of_fifty_lt h]
      · simp [h]

/-- The Tavily try-block yields exactly the spec-side adequate result. -/
theorem tavily_step_eq (env : SearchEnv) :
    tavily_step env = adequateResult env.tavilyResult :=
  step_adequacy env.tavilyResult

/-- The Google try-block yields exactly the spec-side adequate result. -/
theorem google_step_eq (env : SearchEnv) :
    google_step env = adequateResult env.googleResult :=
  step_adequacy env.googleResult

/-- The DuckDuckGo-full try-block yields exactly the spec-side adequate
result. -/
theorem ddg_full_step_eq (env : SearchEnv) :
    ddg_full_step env = adequateResult env.ddgFullResult :=
  step_adequacy env.ddgFullResult

/-- The Wikipedia try-block yields exactly the spec-side adequate
result. -/
theorem wiki_step_eq (env : SearchEnv) :
    wiki_step env = adequateResult env.wikiResult :=
  step_adequacy env.wikiResult

/-- The Jina try-block yields exactly the spec-side adequate result. -/
theorem jina_step_eq (env : SearchEnv) :
    jina_step env = adequateResult env.jinaResult :=
  step_adequacy env.jinaResult

/-- The DuckDuckGo-Instant try-block equals the spec-side merged yield
(amended semantics: a merge exception discards the adequate instant
result). -/
theorem ddg_instant_step_eq (env : SearchEnv) :
    ddg_instant_step env = instantMergedYield env.ddgInstantResult env.ddgsExtraResult := by
  unfold ddg_instant_step instantMergedYield adequateResult
  rcases env.ddgInstantResult with e | o
  · rfl
  · rcases o with _ | s
    · rfl
    · by_cases h : 50 < s.length
      · simp [h, bne_empty_of_fifty_lt h]
      · simp [h]

/-- The chain tail from Jina equals its spec-side chain. -/
theorem from_jina_eq (env : SearchEnv) :
    smart_search_from_jina env =
      chainRun [(.jina, JINA_ENABLED, adequateResult env.jinaResult, "Jina AI")] := by
  unfold smart_search_from_jina
  rw [jina_step_eq]
  rfl

/-- The chain tail from Wikipedia equals its spec-side chain. -/
theorem from_wiki_eq (env : SearchEnv) :
    smart_search_from_wiki env =
      chainRun [(.wikipedia, WIKIPEDIA_ENABLED, adequateResult env.wikiResult, "Wikipedia"),
                (.jina, JINA_ENABLED, adequateResult env.jinaResult, "Jina AI")] := by
  unfold smart_search_from_wiki
  rw [wiki_step_eq, from_jina_eq]
  rfl

/-- The chain tail from DuckDuckGo full equals its spec-side chain. -/
theorem from_ddg_full_eq (env : SearchEnv) :
    smart_search_from_ddg_full env =
      chainRun [(.ddgFull, true, adequateResult env.ddgFullResult, "DuckDuckGo"),
                (.wikipedia, WIKIPEDIA_ENABLED, adequateResult env.wikiResult, "Wikipedia"),
                (.jina, JINA_ENABLED, adequateResult env.jinaResult, "Jina AI")] := by
  unfold smart_search_from_ddg_full
  rw [ddg_full_step_eq, from_wiki_eq]
  rfl

/-- The chain tail from DuckDuckGo Instant equals its spec-side chain. -/
theorem from_ddg_instant_eq (env : SearchEnv) :
    smart_search_from_ddg_instant env =
      chainRun [(.ddgInstant, true,
                  instantMergedYield env.ddgInstantResult env.ddgsExtraResult,
                  "DuckDuckGo Instant"),
                (.ddgFull, true, adequateResult env.ddgFullResult, "DuckDuckGo"),
                (.wikipedia, WIKIPEDIA_ENABLED, adequateResult env.wikiResult, "Wikipedia"),
                (.jina, JINA_ENABLED, adequateResult env.jinaResult, "Jina AI")] := by
  unfold smart_search_from_ddg_instant
  rw [ddg_instant_step_eq, from_ddg_full_eq]
  rfl

/-- The chain tail from Google equals its spec-side chain. -/
theorem from_google_eq (env : SearchEnv) :
    smart_search_from_google env =
      chainRun [(.google, GOOGLE_SEARCH_ENABLED && env.googleApiKey,
                  adequateResult env.googleResult, "Google Search"),
                (.ddgInstant, true,
                  instantMergedYield env.ddgInstantResult env.ddgsExtraResult,
                  "DuckDuckGo Instant"),
                (.ddgFull, true, adequateResult env.ddgFullResult, "DuckDuckGo"),
                (.wikipedia, WIKIPEDIA_ENABLED, adequateResult env.wikiResult, "Wikipedia"),
                (.jina, JINA_ENABLED, adequateResult env.jinaResult, "Jina AI")] := by
  unfold smart_search_from_google
  rw [google_step_eq, from_ddg_instant_eq]
  rfl

/-- The chain tail from Tavily equals its spec-side chain. -/
theorem from_tavily_eq (env : SearchEnv) :
    smart_search_from_tavily env =
      chainRun [(.tavily, TAVILY_ENABLED && env.tavilyApiKey,
                  adequateResult env.tavilyResult, "Tavily AI Search"),
                (.google, GOOGLE_SEARCH_ENABLED && env.googleApiKey,
                  adequateResult env.googleResult, "Google Search"),
                (.ddgInstant, true,
                  instantMergedYield env.ddgInstantResult env.ddgsExtraResult,
                  "DuckDuckGo Instant"),
                (.ddgFull, true, adequateResult env.ddgFullResult, "DuckDuckGo"),
                (.wikipedia, WIKIPEDIA_ENABLED, adequateResult env.wikiResult, "Wikipedia"),
                (.jina, JINA_ENABLED, adequateResult env.jinaResult, "Jina AI")] := by
  unfold smart_search_from_tavily
  rw [tavily_step_eq, from_google_eq]
  rfl

/-- A chain that yields no result reports no sources. -/
theorem chainRun_none_sources : ∀ steps : List ChainStep,
    (chainRun steps).result = none → (chainRun steps).sources = [] := by
  intro steps
  induction steps with
  | nil => intro _; rfl
  | cons s rest ih =>
    obtain ⟨b, g, out, label⟩ := s
    simp only [chainRun]
    by_cases hg : g
    · simp only [if_pos hg]
      rcases out with _ | r
      · simpa [consAtt] using ih
      · intro hc
        simp at hc
    · simpa [if_neg hg] using ih

/-- The attempted backends of a chain run are a sublist of the chain's
backend order. -/
theorem chainRun_attempted_sublist : ∀ steps : List ChainStep,
    (chainRun steps).attempted.Sublist (steps.map (fun x => x.1)) := by
  intro steps
  induction steps with
  | nil => simp [chainRun]
  | cons s rest ih =>
    obtain ⟨b, g, out, label⟩ := s
    simp only [chainRun, List.map_cons]
    by_cases hg : g
    · simp only [if_pos hg]
      rcases out with _ | r
      · simpa [consAtt] using List.Sublist.cons₂ b ih
      · exact List.Sublist.cons₂ b (List.nil_sublist _)
    · simp only [if_neg hg]
      exact List.Sublist.cons b ih

/-- C3 as amended: `smart_search` is exactly the ordered fallback chain of
the claim — time-service short-circuit, Tavily, Google, DuckDuckGo
Instant, DuckDuckGo full, Wikipedia, Jina — where a later backend is
attempted only when every earlier attempted one yielded nothing, a yield
is an adequate (non-empty, above-50-chars) result except that the
DuckDuckGo-Instant step also requires its supplementary merge call (fired
for adequate results under 300 chars) not to raise, every exception is
swallowed as "no result", exhaustion returns `(none, [])`, and the
attempted backends always follow the fixed order. -/
theorem smart_search_chain_amended (q : String) (env : SearchEnv) :
    smart_search_trace q env = chainRun (searchChainSteps q env) ∧
    ((smart_search q env).1 = none → smart_search q env = (none, [])) ∧
    (smart_search_trace q env).attempted.Sublist searchBackendOrder := by
  have hmain : smart_search_trace q env = chainRun (searchChainSteps q env) := by
    unfold smart_search_trace searchChainSteps
    rw [time_api_step_eq, from_tavily_eq]
    rfl
  refine ⟨hmain, ?_, ?_⟩
  · intro hnone
    unfold smart_search at hnone ⊢
    rw [hmain] at hnone ⊢
    simp only at hnone
    rw [hnone, chainRun_none_sources _ hnone]
  · rw [hmain]
    have := chainRun_attempted_sublist (searchChainSteps q env)
    simpa [searchChainSteps, searchBackendOrder] using this

/-- C3 counterexample: with Tavily/Google empty, an adequate 60-char
DuckDuckGo-Instant result whose supplementary merge call raises, and an
adequate DuckDuckGo-full result, the chain attempts DuckDuckGo full and
returns its result — even though an earlier backend had already produced
an adequate result, contradicting the claim's "a later backend is
attempted only if every earlier one produced no adequate result". -/
theorem smart_search_adequate_discarded_counterexample :
    c3CounterEnv.ddgInstantResult = Except.ok (some ddgInstantSample) ∧
    50 < ddgInstantSample.length ∧ ddgInstantSample.length < 300 ∧
    SBackend.ddgFull ∈ (smart_search_trace "capital of france" c3CounterEnv).attempted ∧
    smart_search "capital of france" c3CounterEnv = (some ddgFullSample, ["DuckDuckGo"]) :=
  ⟨rfl, by decide, by decide, by decide, by decide⟩

/-- C8: the planner's precedence — (1) GREETING/SMALL_TALK intent forces
the casual shape (500-token cap, 2-4-sentence instruction) whatever the
query contains; (2) otherwise a brevity keyword forces the ~50-word brief
shape even when detail keywords are present; (3) otherwise a detail
keyword, a complex-question pattern or a 12-or-more-word query forces the
~400-500-word detailed shape; (4) otherwise the ~200-300-word normal
shape. -/
theorem get_dynamic_response_config_precedence (q i : String) (b : Bool) :
    ((i = IntentType.GREETING ∨ i = IntentType.SMALL_TALK) →
      AdaptiveResponseEngine.get_dynamic_response_config q i b = casualConfig) ∧
    (i ≠ IntentType.GREETING → i ≠ IntentType.SMALL_TALK →
      (∃ kw ∈ brevity_keywords, strContains (pyStrip (pyLower q)) kw = true) →
      AdaptiveResponseEngine.get_dynamic_response_config q i b = briefConfig) ∧
    (i ≠ IntentType.GREETING → i ≠ IntentType.SMALL_TALK →
      (∀ kw ∈ brevity_keywords, strContains (pyStrip (pyLower q)) kw = false) →
      ((∃ kw ∈ explicit_detail_keywords, strContains (pyStrip (pyLower q)) kw = true) ∨
        (∃ pat ∈ complex_question_patterns, strContains (pyStrip (pyLower q)) pat = true) ∨
        12 ≤ (pySplit q).length) →
      AdaptiveResponseEngine.get_dynamic_response_config q i b = detailedConfig) ∧
    (i ≠ IntentType.GREETING → i ≠ IntentType.SMALL_TALK →
      (∀ kw ∈ brevity_keywords, strContains (pyStrip (pyLower q)) kw = false) →
      (∀ kw ∈ explicit_detail_keywords, strContains (pyStrip (pyLower q)) kw = false) →
      (∀ pat ∈ complex_question_patterns, strContains (pyStrip (pyLower q)) pat = false) →
      (pySplit q).length < 12 →
      AdaptiveResponseEngine.get_dynamic_response_config q i b = normalConfig) ∧
    (casualConfig.max_tokens = 500 ∧
      strContains casualConfig.length_instruction "2-4 sentences" = true ∧
      strContains briefConfig.length_instruction "~50 words" = true ∧
      strContains detailedConfig.length_instruction "~400-500 words" = true ∧
      strContains normalConfig.length_instruction "~200-300 words" = true) := by
  have hred : AdaptiveResponseEngine.get_dynamic_response_config q i b =
      (if i == IntentType.GREETING || i == IntentType.SMALL_TALK then casualConfig
       else if brevity_keywords.any (fun kw => strContains (pyStrip (pyLower q)) kw) then
         briefConfig
       else if explicit_detail_keywords.any (fun kw => strContains (pyStrip (pyLower q)) kw) ||
           complex_question_patterns.any (fun pat => strContains (pyStrip (pyLower q)) pat) ||
           decide ((pySplit q).length ≥ 12) then detailedConfig
       else normalConfig) := rfl
  have anyFalse : ∀ (l : List String) (p : String → Bool),
      (∀ x ∈ l, p x = false) → l.any p = false := fun l p h =>
    List.any_eq_false.mpr (fun x hx => by simp [h x hx])
  refine ⟨?_, ?_, ?_, ?_, by decide, by decide, by decide, by decide, by decide⟩
  · rintro (rfl | rfl) <;> simp [hred]
  · intro hg hs hex
    have h1 : (i == IntentType.GREETING || i == IntentType.SMALL_TALK) = false := by
      simp [hg, hs]
    have h2 : brevity_keywords.any (fun kw => strContains (pyStrip (pyLower q)) kw) = true :=
      List.any_eq_true.mpr hex
    simp [hred, h1, h2]
  · intro hg hs hno hdet
    have h1 : (i == IntentType.GREETING || i == IntentType.SMALL_TALK) = false := by
      simp [hg, hs]
    have h2 : brevity_keywords.any (fun kw => strContains (pyStrip (pyLower q)) kw) = false :=
      anyFalse _ _ hno
    have h3 : (explicit_detail_keywords.any (fun kw => strContains (pyStrip (pyLower q)) kw) ||
        complex_question_patterns.any (fun pat => strContains (pyStrip (pyLower q)) pat) ||
        decide ((pySplit q).length ≥ 12)) = true := by
      rcases hdet with h | h | h
      · simp [List.any_eq_true.mpr h]
      · simp [List.any_eq_true.mpr h]
      · simp [h]
    simp [hred, h1, h2, h3]
  · intro hg hs hnob hnod hnop hwc
    have h1 : (i == IntentType.GREETING || i == IntentType.SMALL_TALK) = false := by
      simp [hg, hs]
    have h2 : brevity_keywords.any (fun kw => strContains (pyStrip (pyLower q)) kw) = false :=
      anyFalse _ _ hnob
    have h3 : (explicit_detail_keywords.any (fun kw => strContains (pyStrip (pyLower q)) kw) ||
        complex_question_patterns.any (fun pat => strContains (pyStrip (pyLower q)) pat) ||
        decide ((pySplit q).length ≥ 12)) = false := by
      have hd : decide ((pySplit q).length ≥ 12) = false := by
        simp only [decide_eq_false_iff_not]
        omega
      rw [anyFalse _ _ hnod, anyFalse _ _ hnop, hd]
      rfl
    simp [hred, h1, h2, h3]

/-- C8 witness: "briefly compare rust and go in detail" carries both a
brevity keyword and detail keywords with a non-greeting intent; brevity
wins. -/
theorem get_dynamic_response_config_precedence_witness :
    AdaptiveResponseEngine.get_dynamic_response_config
      "briefly compare rust and go in detail" IntentType.GENERAL_TASK false = briefConfig :=
  (get_dynamic_response_config_precedence
      "briefly compare rust and go in detail" IntentType.GENERAL_TASK false).2.1
    (by decide) (by decide)
    ⟨"briefly", by decide, by decide⟩

/-- C9 counterexample: the whitespace-only response `" "` is a non-empty
string, yet the cleanup returns `""` — both the substituted text and the
stripped-original fallback strip to nothing. -/
theorem validate_and_clean_response_empty_counterexample :
    (" " ≠ "") ∧ validate_and_clean_response " " "any question" = "" :=
  ⟨by decide, by decide⟩

/-- C9 as amended: for every response containing a non-whitespace
character, the cleanup never returns the empty string, and whenever the
ordered substitutions strip all content it falls back to the original
response stripped of surrounding whitespace. -/
theorem validate_and_clean_response_amended (response query : String)
    (hne : pyStrip response ≠ "") :
    (cleaned_of response = "" →
      validate_and_clean_response response query = pyStrip response) ∧
    validate_and_clean_response response query ≠ "" := by
  have hrne : (response == "") = false := by
    rw [beq_eq_false_iff_ne]
    intro he
    subst he
    exact hne rfl
  unfold validate_and_clean_response
  rw [hrne]
  simp only [Bool.false_eq_true, if_false]
  by_cases hc : cleaned_of response = ""
  · simp [hc, hne]
  · have : (cleaned_of response == "") = false := by rwa [beq_eq_false_iff_ne]
    simp [this, hc]

/-- C9 witness: a real answer survives cleanup non-empty. -/
theorem validate_and_clean_response_amended_witness :
    validate_and_clean_response "Paris is the capital of France." "capital of france" ≠ "" :=
  (validate_and_clean_response_amended "Paris is the capital of France."
    "capital of france" (by decide)).2

/-- The 400-character truncation step never exceeds 400 characters. -/
theorem truncate400_length_le (s : String) :
    (if s.length > 400 then String.mk (s.toList.take 400) else s).length ≤ 400 := by
  by_cases h : s.length > 400
  · rw [if_pos h]
    have : (String.mk (s.toList.take 400)).length = (s.toList.take 400).length := rfl
    rw [this, List.length_take]
    omega
  · rw [if_neg h]
    omega

/-- C10: `rewrite_query_for_search` returns the lower-cased stripped query
with the filler phrases replaced away, whitespace-normalized and truncated
to at most 400 characters (`rewritten_core`); when that cleaning leaves an
empty string it returns the original query unchanged, so the rewritten
query is never empty when the input is non-empty. -/
theorem rewrite_query_for_search_spec (q : String) :
    ((rewritten_core q).length ≤ 400) ∧
    (rewritten_core q ≠ "" → rewrite_query_for_search q = rewritten_core q) ∧
    (rewritten_core q = "" → rewrite_query_for_search q = q) ∧
    (q ≠ "" → rewrite_query_for_search q ≠ "") := by
  have hlen : (rewritten_core q).length ≤ 400 := by
    unfold rewritten_core
    exact truncate400_length_le _
  refine ⟨hlen, ?_, ?_, ?_⟩
  · intro h
    unfold rewrite_query_for_search
    have : (rewritten_core q != "") = true := by rwa [bne_iff_ne]
    simp [this]
  · intro h
    unfold rewrite_query_for_search
    simp [h]
  · intro hq
    unfold rewrite_query_for_search
    by_cases h : rewritten_core q = ""
    · simp [h, hq]
    · have : (rewritten_core q != "") = true := by rwa [bne_iff_ne]
      simp [this, h]

/-- C10 witness: filler phrases drop out and the result is non-empty. -/
theorem rewrite_query_for_search_spec_witness :
    rewrite_query_for_search "please tell me the weather" ≠ "" :=
  (rewrite_query_for_search_spec "please tell me the weather").2.2.2 (by decide)

/-- Pruning always leaves at most `2 * MAX_HISTORY` turns. -/
theorem prune_history_length_le (h : List Turn) :
    (prune_history h).length ≤ 2 * MAX_HISTORY := by
  unfold prune_history MAX_HISTORY
  split
  · rename_i hgt
    rw [List.length_drop]
    omega
  · rename_i hle
    omega

/-- Pruning preserves evenness of the history length (it truncates to the
even bound `MAX_HISTORY * 2`, never mid-pair). -/
theorem prune_history_length_even (h : List Turn) (he : h.length % 2 = 0) :
    (prune_history h).length % 2 = 0 := by
  unfold prune_history MAX_HISTORY
  split
  · rename_i hgt
    rw [List.length_drop]
    omega
  · exact he

/-- One `get_llama_response` call preserves the amended invariant: an even
history of at most `2 * MAX_HISTORY + 2` turns stays even and within that
bound (prune-to-20 happens before the append of one user/assistant
pair). -/
theorem get_llama_response_history_step (h : List Turn) (env : GenEnv) (q : String)
    (i : Option String) (he : h.length % 2 = 0) (hle : h.length ≤ 2 * MAX_HISTORY + 2) :
    ((get_llama_response h env q i).newHistory.length % 2 = 0) ∧
    ((get_llama_response h env q i).newHistory.length ≤ 2 * MAX_HISTORY + 2) := by
  have hp1 := prune_history_length_le h
  have hp2 := prune_history_length_even h he
  cases hs : env.sessionOk with
  | error e =>
    simp only [get_llama_response, hs]
    exact ⟨he, hle⟩
  | ok b =>
    cases b with
    | false =>
      simp only [get_llama_response, hs]
      exact ⟨he, hle⟩
    | true =>
      simp only [get_llama_response, hs]
      rcases env.raceOutcome with e | ⟨t, p⟩
      · exact ⟨hp2, le_trans hp1 (by omega)⟩
      · simp only [List.length_append, List.length_cons, List.length_nil,
          apply_ite List.length, ite_self]
        exact ⟨by omega, by omega⟩

/-- C1 counterexample: eleven successful greeting calls starting from an
empty history leave `2 * MAX_HISTORY + 2 = 22` entries — the prune runs
*before* the append and never after it, so the stored history exceeds the
claimed `2 * MAX_HISTORY` bound. -/
theorem history_length_bound_counterexample :
    (c1Run 11).length = 2 * MAX_HISTORY + 2 ∧ ¬((c1Run 11).length ≤ 2 * MAX_HISTORY) :=
  ⟨by decide, by decide⟩

/-- C1 as amended: after any sequence of `get_llama_response` calls
starting from an empty session history, the history length is always even
and at most `2 * MAX_HISTORY + 2` (the source prunes to `2 * MAX_HISTORY`
on entry and then appends exactly one user/assistant pair on success). -/
theorem history_invariant_amended (calls : List GenCall) :
    (run_llama_calls calls).length % 2 = 0 ∧
    (run_llama_calls calls).length ≤ 2 * MAX_HISTORY + 2 := by
  induction calls with
  | nil => exact ⟨rfl, by decide⟩
  | cons c cs ih =>
    exact get_llama_response_history_step (run_llama_calls cs) c.env c.query c.intent ih.1 ih.2

/-- The 3000-character truncation preserves truthiness of the search
result. -/
theorem truncate_search_context_truthy (o : Option String) :
    pyTruthyO (truncate_search_context o) = pyTruthyO o := by
  rcases o with _ | s
  · rfl
  · simp only [truncate_search_context]
    by_cases hc : (s != "" && decide (3000 < s.length)) = true
    · rw [if_pos hc]
      have h2 : (s != "") = true := ((Bool.and_eq_true _ _).mp hc).1
      have hmark : 0 < ("\n... [truncated for accuracy]" : String).length := by decide
      have hne : (String.mk (s.toList.take 3000) ++ "\n... [truncated for accuracy]") ≠ "" := by
        intro hE
        have hL := congrArg String.length hE
        rw [String.length_append] at hL
        have h0 : ("" : String).length = 0 := rfl
        rw [h0] at hL
        omega
      show (_ != "") = (s != "")
      rw [h2, bne_iff_ne]
      exact hne
    · rw [if_neg hc]

/-- C5: when search produced a truthy result and the race succeeded, the
pair appended to the persisted history is exactly the redacted markers —
the user turn `[Search query: ...]` holding only the original query, and
the constant assistant turn `[Answered with real-time search data]`; the
raw search text itself is never written into the history. -/
theorem search_turn_redaction (h : List Turn) (env : GenEnv) (q : String) (i : Option String)
    (hsess : env.sessionOk = .ok true)
    (hsearch : should_search q i = true)
    (t p : String) (hrace : env.raceOutcome = .ok (t, p))
    (hres : pyTruthyO (gen_search_results q (expand_query_for_search q) env).1 = true) :
    (get_llama_response h env q i).newHistory =
      prune_history h ++
        [⟨"user", "[Search query: " ++ q ++ "]"⟩,
         ⟨"assistant", "[Answered with real-time search data]"⟩] := by
  simp only [get_llama_response, hsess, hsearch, hrace, if_true,
    truncate_search_context_truthy, hres]

/-- C5 witness: a concrete search-augmented call stores exactly the marker
pair. -/
theorem search_turn_redaction_witness :
    (get_llama_response [] c5WitnessEnv "capital of france"
        (some IntentType.INFO_QUESTION)).newHistory =
      [⟨"user", "[Search query: capital of france]"⟩,
       ⟨"assistant", "[Answered with real-time search data]"⟩] := by
  have hmain := search_turn_redaction [] c5WitnessEnv "capital of france"
    (some IntentType.INFO_QUESTION) rfl (by decide)
    "Paris is the capital of France." "Groq" rfl (by decide)
  simpa [prune_history] using hmain

/-- C7: the generation entry point never lets an exception cross its
boundary — every call returns either the cleaned race response or one of
the three fixed user-facing error strings; and whenever the session is
fine but the race is exhausted, the reply is precisely the string naming
the failure of both providers (Groq and Cerebras), never a raw error
body. -/
theorem get_llama_response_error_boundary (h : List Turn) (env : GenEnv) (q : String)
    (i : Option String) :
    ((get_llama_response h env q i).reply = unexpectedErrorMsg ∨
     (get_llama_response h env q i).reply = initSessionFailMsg ∨
     (get_llama_response h env q i).reply = bothProvidersFailedMsg ∨
     ∃ t p, env.raceOutcome = .ok (t, p) ∧
       (get_llama_response h env q i).reply = validate_and_clean_response t q) ∧
    (env.sessionOk = .ok true → ∀ e, env.raceOutcome = .error e →
      (get_llama_response h env q i).reply = bothProvidersFailedMsg) := by
  constructor
  · cases hs : env.sessionOk with
    | error e =>
      left
      simp [get_llama_response, hs]
    | ok b =>
      cases b with
      | false =>
        right; left
        simp [get_llama_response, hs]
      | true =>
        cases hr : env.raceOutcome with
        | error e =>
          right; right; left
          simp [get_llama_response, hs, hr]
        | ok tp =>
          obtain ⟨t, p⟩ := tp
          right; right; right
          exact ⟨t, p, rfl, by simp [get_llama_response, hs, hr]⟩
  · intro hsess e hr
    simp [get_llama_response, hsess, hr]

/-- C7 witness: with the session fine and both providers failing, the
reply is the fixed both-providers-failed string. -/
theorem get_llama_response_error_boundary_witness :
    (get_llama_response [] c7WitnessEnv "hello there" (some IntentType.GREETING)).reply =
      bothProvidersFailedMsg :=
  (get_llama_response_error_boundary [] c7WitnessEnv "hello there"
    (some IntentType.GREETING)).2 rfl "All AI models failed to respond." rfl

/-- C3 witness: when every backend fails, the resolver returns
`(none, [])` rather than raising. -/
theorem smart_search_chain_amended_witness :
    smart_search "capital of france" emptySearchEnv = (none, []) :=
  (smart_search_chain_amended "capital of france" emptySearchEnv).2.1 (by decide)
